import Mathlib

/-!
Verification of the `Verex` fluent regular-expression builder
(`src/verbal_expressions.rs`).

The builder owns three string segments.  The Rust struct names them
`prefix`, `source`, `suffix`; since `prefix` is a reserved word in Lean we
call the first field `pre`.  Every transformation either appends to one of
the three segments or (for `end_capture`) slices one character off the
suffix.  Terminal operations render `pre ++ source ++ suffix` and hand the
result to the external `regex` crate.

Modelling conventions:
* Rust `String` is modelled by Lean `String`; every character this library
  writes into a segment is ASCII, so byte-level slicing in the Rust code
  coincides with the character-level operations used here.
* Rust `self.prefix.as_slice().contains("(")` tests containment of a
  one-character substring, which is the same as containment of the
  character `'('`; we model it with `strContains` below.
* `end_capture` computes `suffix.slice(0, suffix.len() - 1)`.  With the
  pre-1.0 Rust semantics of this crate, `len() - 1` on an empty suffix
  wraps around (unsigned arithmetic) and the subsequent `slice` call is out
  of bounds, so the task panics.  A panic is modelled as `none`; the
  successful path returns `some`.
* `as_regex` calls `Regex::new(...).unwrap()`: on a compile error the
  `unwrap` panics.  The external engine is modelled abstractly by a
  `RegexEngine` structure whose `compile` returns `Except`; the panic of
  `unwrap` is again modelled as `none`.  Note that the Rust terminal
  operations have plain return types (`bool`, `Vec<String>`, `String`),
  not `Result` types.
-/

/-- The builder record from `src/verbal_expressions.rs`:
`prefix` (here `pre`), `source` (the body) and `suffix`. -/
structure Verex where
  pre : String
  source : String
  suffix : String
deriving DecidableEq, Repr

/-- Containment of a single character in a string, modelling the Rust
`str::contains` applied to a one-character pattern. -/
def strContains (s : String) (c : Char) : Bool :=
  s.data.contains c

namespace Verex

/-- `Verex::from` — build a `Verex` from its three segments. -/
def from' (p source suffix : String) : Verex :=
  ⟨p, source, suffix⟩

/-- `Verex::new()` — all three segments empty. -/
def new : Verex :=
  from' "" "" ""

/-- `start_of_line` — append `^` to the prefix segment. -/
def start_of_line (v : Verex) : Verex :=
  from' (v.pre ++ "^") v.source v.suffix

/-- `end_of_line` — append `$` to the suffix segment. -/
def end_of_line (v : Verex) : Verex :=
  from' v.pre v.source (v.suffix ++ "$")

/-- `add` — append `value` to the body (`source`) segment. -/
def add (v : Verex) (value : String) : Verex :=
  from' v.pre (v.source ++ value) v.suffix

/-- `find` — append `(?:value)` to the body. -/
def find (v : Verex) (value : String) : Verex :=
  v.add ("(?:" ++ value ++ ")")

/-- `then` (alias of `find`; `then` is reserved in Lean). -/
def then' (v : Verex) (value : String) : Verex :=
  v.find value

/-- `maybe` — append `(?:value)?` to the body. -/
def maybe (v : Verex) (value : String) : Verex :=
  v.add ("(?:" ++ value ++ ")?")

/-- `anything` — append `(?:.*)`. -/
def anything (v : Verex) : Verex :=
  v.add "(?:.*)"

/-- `anything_but_not` — append `(?:[^value]*)`. -/
def anything_but_not (v : Verex) (value : String) : Verex :=
  v.add ("(?:[^" ++ value ++ "]*)")

/-- `something` — append `(?:.+)`. -/
def something (v : Verex) : Verex :=
  v.add "(?:.+)"

/-- `something_but_not` — append `(?:[^value]+)`. -/
def something_but_not (v : Verex) (value : String) : Verex :=
  v.add ("(?:[^" ++ value ++ "]+)")

/-- `line_break` — append `(?:(?:\n)|(?:\r\n))` (the Rust source writes the
two-character escape sequences `\\n`, `\\r\\n`, i.e. a literal backslash
followed by a letter). -/
def line_break (v : Verex) : Verex :=
  v.add "(?:(?:\\n)|(?:\\r\\n))"

/-- `br` — alias of `line_break`. -/
def br (v : Verex) : Verex :=
  v.line_break

/-- `tab` — append `(?:\t)`. -/
def tab (v : Verex) : Verex :=
  v.add "(?:\\t)"

/-- `word` — append `(?:\w+)`. -/
def word (v : Verex) : Verex :=
  v.add "(?:\\w+)"

/-- `non_word` — append `(?:\W+)`. -/
def non_word (v : Verex) : Verex :=
  v.add "(?:\\W+)"

/-- `digit` — append `(?:\d)`. -/
def digit (v : Verex) : Verex :=
  v.add "(?:\\d)"

/-- `non_digit` — append `(?:\D)`. -/
def non_digit (v : Verex) : Verex :=
  v.add "(?:\\D)"

/-- `space` — append `(?:\s)`. -/
def space (v : Verex) : Verex :=
  v.add "(?:\\s)"

/-- `non_space` — append `(?:\S)`. -/
def non_space (v : Verex) : Verex :=
  v.add "(?:\\S)"

/-- `any_of` — append the character class `[value]`. -/
def any_of (v : Verex) (value : String) : Verex :=
  v.add ("[" ++ value ++ "]")

/-- `any` — alias of `any_of`. -/
def any (v : Verex) (value : String) : Verex :=
  v.any_of value

/-- `range` — fold the pairs into `from-to` fragments and append the class
`[…]`.  The Rust fold is
`pairs.iter().fold("", |buf, &(from, to)| buf + format!("{}-{}", from, to))`. -/
def range (v : Verex) (pairs : List (String × String)) : Verex :=
  let ranges := pairs.foldl (fun buf p => buf ++ (p.1 ++ "-" ++ p.2)) ""
  v.add ("[" ++ ranges ++ "]")

/-- `add_modifier` — append `(?modifier)`. -/
def add_modifier (v : Verex) (modifier : String) : Verex :=
  v.add ("(?" ++ modifier ++ ")")

/-- `remove_modifier` — append `(?-modifier)`. -/
def remove_modifier (v : Verex) (modifier : String) : Verex :=
  v.add ("(?-" ++ modifier ++ ")")

/-- `with_any_case` — `add_modifier("i")`. -/
def with_any_case (v : Verex) : Verex :=
  v.add_modifier "i"

/-- `with_specific_case` — `remove_modifier("i")`. -/
def with_specific_case (v : Verex) : Verex :=
  v.remove_modifier "i"

/-- `search_multiline` — `add_modifier("m")`. -/
def search_multiline (v : Verex) : Verex :=
  v.add_modifier "m"

/-- `search_oneline` — `remove_modifier("m")`. -/
def search_oneline (v : Verex) : Verex :=
  v.remove_modifier "m"

/-- `one_or_more` — append `+`. -/
def one_or_more (v : Verex) : Verex :=
  v.add "+"

/-- `zero_or_more` — append `*`. -/
def zero_or_more (v : Verex) : Verex :=
  v.add "*"

/-- `count` — append `{count}` (Rust `format!` with a doubled brace). -/
def count (v : Verex) (c : Int) : Verex :=
  v.add ("\x7b" ++ toString c ++ "\x7d")

/-- `count_range` — append `{from,to}`. -/
def count_range (v : Verex) (f t : Int) : Verex :=
  v.add ("\x7b" ++ toString f ++ "," ++ toString t ++ "\x7d")

/-- `at_least` — append `{from,}`. -/
def at_least (v : Verex) (f : Int) : Verex :=
  v.add ("\x7b" ++ toString f ++ ",\x7d")

/-- `multiple` — dispatch on `counts.len()`: `0` → `then` + `one_or_more`,
`1` → `then` + `count(counts[0])`, otherwise `then` +
`count_range(counts[0], counts[1])`. -/
def multiple (v : Verex) (value : String) (counts : List Int) : Verex :=
  match counts with
  | [] => (v.then' value).one_or_more
  | [c] => (v.then' value).count c
  | c₁ :: c₂ :: _ => (v.then' value).count_range c₁ c₂

/-- `or` — append `(` to the prefix unless it already contains `(`, append
`)` to the suffix unless it already contains `)`, then `add(")|(")`, then
`then(value)`. -/
def or (v : Verex) (value : String) : Verex :=
  let p := if strContains v.pre '(' then "" else "("
  let s := if strContains v.suffix ')' then "" else ")"
  (((from' (v.pre ++ p) v.source (v.suffix ++ s)).add ")|(").then' value)

/-- `begin_capture` — append `)` to the suffix, then `add("(")`. -/
def begin_capture (v : Verex) : Verex :=
  (from' v.pre v.source (v.suffix ++ ")")).add "("

/-- `end_capture` — `suffix.slice(0, suffix.len() - 1)` then `add(")")`.
When the suffix is empty the Rust unsigned subtraction wraps and the slice
is out of bounds: the task panics, modelled as `none`. -/
def end_capture (v : Verex) : Option Verex :=
  if v.suffix = "" then none
  else some ((from' v.pre v.source (String.mk v.suffix.data.dropLast)).add ")")

/-- `as_str` — render the pattern: `prefix + source + suffix`. -/
def as_str (v : Verex) : String :=
  v.pre ++ v.source ++ v.suffix

end Verex

/-- Interface of the external `regex` crate, the collaborator that compiles
and runs pattern strings.  `R` is the engine's compiled-pattern type.
`compile` models `Regex::new` (`Err` carries the engine diagnostic).
`captures` models `Captures::iter` collected in order: `some` on a match,
holding group 0 (the whole match) followed by each capture group in order;
`none` when the pattern does not match. -/
structure RegexEngine (R : Type) where
  compile : String → Except String R
  is_match : R → String → Bool
  captures : R → String → Option (List String)
  split : R → String → List String
  replace : R → String → String → String

namespace Verex

variable {R : Type}

/-- `as_regex` — `Regex::new(self.as_str()).unwrap()`.  On a compile error
the `unwrap` panics; the panic is modelled as `none`. -/
def as_regex (E : RegexEngine R) (v : Verex) : Option R :=
  match E.compile v.as_str with
  | .ok r => some r
  | .error _ => none

/-- `is_match` — compile (unwrapping) then delegate.  The Rust return type
is a plain `bool`; `none` models the panic of the unwrap. -/
def is_match (E : RegexEngine R) (v : Verex) (text : String) : Option Bool :=
  (v.as_regex E).map fun r => E.is_match r text

/-- `captures` — compile (unwrapping) then delegate: on `Some(captures)`
collect the groups in order (the Rust `map(|x| x.to_string())` copies each
group verbatim), on `None` return the empty vector. -/
def captures (E : RegexEngine R) (v : Verex) (text : String) : Option (List String) :=
  (v.as_regex E).map fun r =>
    match E.captures r text with
    | some cs => cs
    | none => []

/-- `split` — compile (unwrapping) then delegate. -/
def split (E : RegexEngine R) (v : Verex) (text : String) : Option (List String) :=
  (v.as_regex E).map fun r => E.split r text

/-- `replace` — compile (unwrapping) then delegate. -/
def replace (E : RegexEngine R) (v : Verex) (text rep : String) : Option String :=
  (v.as_regex E).map fun r => E.replace r text rep

/-- Spec-side model of the error-propagation policy of §7 of the spec
(“compile-time failures propagate directly to the caller as a typed
error/result”): the terminal match operation as the spec describes it,
returning the engine's diagnostic as a typed `Except.error`.  Used only to
compare the spec's words with the code's actual `unwrap` behaviour. -/
def is_match_specModel (E : RegexEngine R) (v : Verex) (text : String) :
    Except String Bool :=
  (E.compile v.as_str).map fun r => E.is_match r text

end Verex

/-!
### Delimiter-balance machinery

`balAux o c d cs` scans `cs`, tracking the nesting depth of the delimiter
pair `o`/`c` starting from depth `d`; it returns `none` as soon as the
depth would go negative, otherwise `some` of the final depth.  A string is
a balanced fragment for the pair when the scan of its characters from
depth `0` ends at depth `0`.  This formalises the spec's invariant
"parenthesis/bracket balance holds" for the rendered pattern.
-/

/-- One scan step: `o` opens, `c` closes, anything else is neutral. -/
def balStep (o c : Char) (d : Int) (ch : Char) : Int :=
  if ch = o then d + 1 else if ch = c then d - 1 else d

/-- Depth-tracking scan; `none` when the depth would go negative. -/
def balAux (o c : Char) : Int → List Char → Option Int
  | d, [] => some d
  | d, ch :: rest =>
    if balStep o c d ch < 0 then none else balAux o c (balStep o c d ch) rest

/-- Scan of a whole string from a given starting depth. -/
def sBal (o c : Char) (d : Int) (s : String) : Option Int :=
  balAux o c d s.data

/-- A string is balanced for the pair `o`/`c`. -/
def balancedFor (o c : Char) (s : String) : Bool :=
  sBal o c 0 s == some 0

/-- Balanced parentheses and balanced square brackets. -/
def balancedPattern (s : String) : Bool :=
  balancedFor '(' ')' s && balancedFor '[' ']' s

/-- A string free of all four delimiter characters. -/
def delimFree (s : String) : Bool :=
  s.data.all fun ch => !(ch == '(' || ch == ')' || ch == '[' || ch == ']')

theorem balAux_append (o c : Char) (xs ys : List Char) (d : Int) :
    balAux o c d (xs ++ ys) = (balAux o c d xs).bind fun e => balAux o c e ys := by
  induction xs generalizing d with
  | nil => simp [balAux]
  | cons ch rest ih =>
    simp only [List.cons_append, balAux]
    split
    · simp
    · exact ih _

theorem balAux_free (o c : Char) (xs : List Char)
    (h : ∀ ch ∈ xs, ch ≠ o ∧ ch ≠ c) (d : Int) (hd : 0 ≤ d) :
    balAux o c d xs = some d := by
  induction xs with
  | nil => rfl
  | cons ch rest ih =>
    have hch := h ch (List.mem_cons_self ch rest)
    have hstep : balStep o c d ch = d := by
      simp [balStep, hch.1, hch.2]
    simp only [balAux, hstep, if_neg (not_lt.mpr hd)]
    exact ih fun x hx => h x (List.mem_cons_of_mem _ hx)

theorem balAux_shift (o c : Char) (xs : List Char) (k : Int) (hk : 0 ≤ k) :
    ∀ d e : Int, balAux o c d xs = some e → balAux o c (d + k) xs = some (e + k) := by
  induction xs with
  | nil =>
    intro d e h
    simp only [balAux, Option.some.injEq] at h ⊢
    rw [h]
  | cons ch rest ih =>
    intro d e h
    simp only [balAux] at h ⊢
    by_cases hneg : balStep o c d ch < 0
    · rw [if_pos hneg] at h
      exact absurd h (by simp)
    · rw [if_neg hneg] at h
      have hsh : balStep o c (d + k) ch = balStep o c d ch + k := by
        simp only [balStep]
        by_cases ho : ch = o
        · rw [if_pos ho, if_pos ho]; ring
        · rw [if_neg ho, if_neg ho]
          by_cases hc : ch = c
          · rw [if_pos hc, if_pos hc]; ring
          · rw [if_neg hc, if_neg hc]
      have hnn : ¬ balStep o c (d + k) ch < 0 := by
        rw [hsh]
        push_neg at hneg ⊢
        exact add_nonneg hneg hk
      rw [if_neg hnn, hsh]
      exact ih _ _ h

theorem sBal_append (o c : Char) (d : Int) (s t : String) :
    sBal o c d (s ++ t) = (sBal o c d s).bind fun e => sBal o c e t := by
  simp [sBal, String.data_append, balAux_append]

theorem sBal_some_append {o c : Char} {d e f : Int} {s t : String}
    (h1 : sBal o c d s = some e) (h2 : sBal o c e t = some f) :
    sBal o c d (s ++ t) = some f := by
  rw [sBal_append, h1]
  exact h2

theorem delimFree_chars {s : String} (h : delimFree s = true) :
    ∀ ch ∈ s.data, ch ≠ '(' ∧ ch ≠ ')' ∧ ch ≠ '[' ∧ ch ≠ ']' := by
  intro ch hch
  have := List.all_eq_true.mp h ch hch
  simp only [Bool.not_eq_true'] at this
  simp only [Bool.or_eq_false_iff, beq_eq_false_iff_ne, ne_eq] at this
  exact ⟨this.1.1.1, this.1.1.2, this.1.2, this.2⟩

theorem sBal_free_parens {s : String} (h : delimFree s = true) (d : Int) (hd : 0 ≤ d) :
    sBal '(' ')' d s = some d :=
  balAux_free _ _ _ (fun ch hch => ⟨(delimFree_chars h ch hch).1,
    (delimFree_chars h ch hch).2.1⟩) d hd

theorem sBal_free_brackets {s : String} (h : delimFree s = true) (d : Int) (hd : 0 ≤ d) :
    sBal '[' ']' d s = some d :=
  balAux_free _ _ _ (fun ch hch => ⟨(delimFree_chars h ch hch).2.2.1,
    (delimFree_chars h ch hch).2.2.2⟩) d hd

theorem sBal_shift {o c : Char} {s : String} {d e k : Int}
    (h : sBal o c d s = some e) (hk : 0 ≤ k) : sBal o c (d + k) s = some (e + k) :=
  balAux_shift o c s.data k hk d e h

/-!
### Claims
-/

/-- C1: for every builder state, `or(value)` appends one opening paren to
the prefix iff the prefix does not already contain `(`, appends one closing
paren to the suffix iff the suffix does not already contain `)`, then
appends the literal `)|(` to the body, then appends the literal-match
fragment `(?:value)` to the body. -/
theorem c1_or_steps (v : Verex) (value : String) :
    (v.or value).pre = v.pre ++ (if strContains v.pre '(' then "" else "(") ∧
    (v.or value).suffix = v.suffix ++ (if strContains v.suffix ')' then "" else ")") ∧
    (v.or value).source = v.source ++ ")|(" ++ ("(?:" ++ value ++ ")") :=
  ⟨rfl, rfl, rfl⟩

/-- C2: the rendered pattern is the exact character-for-character
concatenation of the three segments — as strings, as character lists, and
length-wise (so no normalization, escaping or other transformation can have
happened). -/
theorem c2_render_is_concat (v : Verex) :
    v.as_str = v.pre ++ v.source ++ v.suffix ∧
    (v.as_str).data = v.pre.data ++ v.source.data ++ v.suffix.data ∧
    (v.as_str).length = v.pre.length + v.source.length + v.suffix.length :=
  ⟨rfl, by simp [Verex.as_str, String.data_append],
    by simp [Verex.as_str, String.length_append]⟩

/-- C6: `multiple(value, counts)` dispatches purely on the number of counts:
zero counts → `then` + `one_or_more`, one count → `then` + `count`, two (or
more) counts → `then` + `count_range` on the first two; on an empty builder
the three renders are `(?:x)+`, `(?:x){1}` and `(?:x){1,2}`. -/
theorem c6_multiple_dispatch (v : Verex) (value : String) (c₁ c₂ : Int)
    (rest : List Int) :
    v.multiple value [] = (v.then' value).one_or_more ∧
    v.multiple value [c₁] = (v.then' value).count c₁ ∧
    v.multiple value (c₁ :: c₂ :: rest) = (v.then' value).count_range c₁ c₂ ∧
    (Verex.new.multiple "x" []).as_str = "(?:x)+" ∧
    (Verex.new.multiple "x" [1]).as_str = "(?:x)\x7b1\x7d" ∧
    (Verex.new.multiple "x" [1, 2]).as_str = "(?:x)\x7b1,2\x7d" :=
  ⟨rfl, rfl, rfl, by decide, by decide, by decide⟩

/-- C7: the literal-match operation `find` (alias `then`) appends exactly
`(?:value)` to the body with `value` embedded verbatim, leaves prefix and
suffix unchanged, and on an empty builder renders `(?:Karen)`. -/
theorem c7_find_appends (v : Verex) (value : String) :
    (v.find value).source = v.source ++ ("(?:" ++ value ++ ")") ∧
    (v.find value).pre = v.pre ∧
    (v.find value).suffix = v.suffix ∧
    v.then' value = v.find value ∧
    (Verex.new.find "Karen").as_str = "(?:Karen)" :=
  ⟨rfl, rfl, rfl, rfl, by decide⟩

/-- C8: every literal/fragment append operation changes only the body: the
prefix and suffix after the call equal the prefix and suffix before it, for
every builder and every argument value (the operations are total functions
of the argument — no validation or rejection occurs). -/
theorem c8_appends_touch_only_body (v : Verex) (value m : String)
    (pairs : List (String × String)) :
    ((v.find value).pre = v.pre ∧ (v.find value).suffix = v.suffix) ∧
    ((v.then' value).pre = v.pre ∧ (v.then' value).suffix = v.suffix) ∧
    ((v.maybe value).pre = v.pre ∧ (v.maybe value).suffix = v.suffix) ∧
    (v.anything.pre = v.pre ∧ v.anything.suffix = v.suffix) ∧
    ((v.anything_but_not value).pre = v.pre ∧
      (v.anything_but_not value).suffix = v.suffix) ∧
    (v.something.pre = v.pre ∧ v.something.suffix = v.suffix) ∧
    ((v.something_but_not value).pre = v.pre ∧
      (v.something_but_not value).suffix = v.suffix) ∧
    (v.line_break.pre = v.pre ∧ v.line_break.suffix = v.suffix) ∧
    (v.br.pre = v.pre ∧ v.br.suffix = v.suffix) ∧
    (v.tab.pre = v.pre ∧ v.tab.suffix = v.suffix) ∧
    (v.word.pre = v.pre ∧ v.word.suffix = v.suffix) ∧
    (v.non_word.pre = v.pre ∧ v.non_word.suffix = v.suffix) ∧
    (v.digit.pre = v.pre ∧ v.digit.suffix = v.suffix) ∧
    (v.non_digit.pre = v.pre ∧ v.non_digit.suffix = v.suffix) ∧
    (v.space.pre = v.pre ∧ v.space.suffix = v.suffix) ∧
    (v.non_space.pre = v.pre ∧ v.non_space.suffix = v.suffix) ∧
    ((v.any_of value).pre = v.pre ∧ (v.any_of value).suffix = v.suffix) ∧
    ((v.any value).pre = v.pre ∧ (v.any value).suffix = v.suffix) ∧
    ((v.range pairs).pre = v.pre ∧ (v.range pairs).suffix = v.suffix) ∧
    ((v.add_modifier m).pre = v.pre ∧ (v.add_modifier m).suffix = v.suffix) ∧
    ((v.remove_modifier m).pre = v.pre ∧
      (v.remove_modifier m).suffix = v.suffix) := by
  repeat' apply And.intro
  all_goals rfl

/-- C9: `start_of_line` appends `^` to the prefix segment (body and suffix
untouched) and `end_of_line` appends `$` to the suffix segment (prefix and
body untouched); on an otherwise-empty builder they render `^` and `$`. -/
theorem c9_anchors (v : Verex) :
    (v.start_of_line).pre = v.pre ++ "^" ∧
    (v.start_of_line).source = v.source ∧
    (v.start_of_line).suffix = v.suffix ∧
    (v.end_of_line).suffix = v.suffix ++ "$" ∧
    (v.end_of_line).pre = v.pre ∧
    (v.end_of_line).source = v.source ∧
    Verex.new.start_of_line.as_str = "^" ∧
    Verex.new.end_of_line.as_str = "$" :=
  ⟨rfl, rfl, rfl, rfl, rfl, rfl, by decide, by decide⟩

/-- `or` written out as an explicit record (the two `if`s are the
paren-presence checks of the Rust source). -/
theorem or_eq (v : Verex) (value : String) :
    v.or value = ⟨v.pre ++ (if strContains v.pre '(' then "" else "("),
      v.source ++ ")|(" ++ ("(?:" ++ value ++ ")"),
      v.suffix ++ (if strContains v.suffix ')' then "" else ")")⟩ :=
  rfl

theorem strContains_append (s t : String) (c : Char) :
    strContains (s ++ t) c = (strContains s c || strContains t c) := by
  simp [strContains, String.data_append]

theorem delimFree_no_open {s : String} (h : delimFree s = true) :
    strContains s '(' = false := by
  rw [strContains]
  by_contra hc
  rw [Bool.not_eq_false] at hc
  simp only [List.elem_eq_mem, decide_eq_true_eq] at hc
  exact (delimFree_chars h '(' hc).1 rfl

theorem delimFree_no_close {s : String} (h : delimFree s = true) :
    strContains s ')' = false := by
  rw [strContains]
  by_contra hc
  rw [Bool.not_eq_false] at hc
  simp only [List.elem_eq_mem, decide_eq_true_eq] at hc
  exact (delimFree_chars h ')' hc).2.1 rfl

/-- C3 counterexample: the chain `new().begin_capture().or("x")` renders
`(()|((?:x))` — four opening but only three closing parentheses — so the
rendered concatenation of a chain of builder calls starting from the empty
builder is NOT always balanced (the `or` paren-presence heuristic skips the
closing paren because `begin_capture` already put `)` into the suffix). -/
theorem c3_counterexample :
    ((Verex.new.begin_capture).or "x").as_str = "(()|((?:x))" ∧
    balancedPattern "(()|((?:x))" = false :=
  ⟨by decide, by decide⟩

/-- C3 (amended): not every chain keeps the rendered pattern balanced —
`begin_capture` followed by `or` breaks it (see the counterexample).  The
"in particular" half of the claim does hold: two chained `or` calls
starting from a builder whose prefix and suffix contain no paren or
bracket characters, whose body is a balanced fragment, and whose `or`
values contain no paren or bracket characters, render a pattern with
balanced parentheses and brackets. -/
theorem c3_two_ors_balanced (v : Verex) (x y : String)
    (hp : delimFree v.pre = true) (hs : delimFree v.suffix = true)
    (hb : balancedPattern v.source = true)
    (hx : delimFree x = true) (hy : delimFree y = true) :
    balancedPattern ((v.or x).or y).as_str = true := by
  have hpo : strContains v.pre '(' = false := delimFree_no_open hp
  have hsc : strContains v.suffix ')' = false := delimFree_no_close hs
  have h1 : strContains (v.pre ++ "(") '(' = true := by
    rw [strContains_append, hpo, Bool.false_or]
    rfl
  have h2 : strContains (v.suffix ++ ")") ')' = true := by
    rw [strContains_append, hsc, Bool.false_or]
    rfl
  have hbp : sBal '(' ')' 0 v.source = some 0 := by
    have := (Bool.and_eq_true _ _).mp hb
    exact beq_iff_eq.mp this.1
  have hbb : sBal '[' ']' 0 v.source = some 0 := by
    have := (Bool.and_eq_true _ _).mp hb
    exact beq_iff_eq.mp this.2
  have hsrc1 : sBal '(' ')' 1 v.source = some 1 := by
    simpa using sBal_shift hbp (zero_le_one)
  have hstr : ((v.or x).or y).as_str =
      v.pre ++ ("(" ++ (v.source ++ (")|(" ++ ("(?:" ++ (x ++ ("))|(" ++
        ("(?:" ++ (y ++ (")" ++ (v.suffix ++ ")")))))))))) := by
    simp [or_eq, Verex.as_str, hpo, hsc, h1, h2, String.append_assoc,
      String.append_empty]
  have pa : sBal '(' ')' 0 v.pre = some 0 := sBal_free_parens hp 0 le_rfl
  have pb : sBal '(' ')' 0 "(" = some 1 := by decide
  have pc : sBal '(' ')' 1 ")|(" = some 1 := by decide
  have pd : sBal '(' ')' 1 "(?:" = some 2 := by decide
  have pe : sBal '(' ')' 2 x = some 2 := sBal_free_parens hx 2 (by norm_num)
  have pf : sBal '(' ')' 2 "))|(" = some 1 := by decide
  have pg : sBal '(' ')' 2 y = some 2 := sBal_free_parens hy 2 (by norm_num)
  have ph : sBal '(' ')' 2 ")" = some 1 := by decide
  have pi : sBal '(' ')' 1 v.suffix = some 1 := sBal_free_parens hs 1 (by norm_num)
  have pj : sBal '(' ')' 1 ")" = some 0 := by decide
  have qa : sBal '[' ']' 0 v.pre = some 0 := sBal_free_brackets hp 0 le_rfl
  have qb : sBal '[' ']' 0 "(" = some 0 := by decide
  have qc : sBal '[' ']' 0 ")|(" = some 0 := by decide
  have qd : sBal '[' ']' 0 "(?:" = some 0 := by decide
  have qe : sBal '[' ']' 0 x = some 0 := sBal_free_brackets hx 0 le_rfl
  have qf : sBal '[' ']' 0 "))|(" = some 0 := by decide
  have qg : sBal '[' ']' 0 y = some 0 := sBal_free_brackets hy 0 le_rfl
  have qh : sBal '[' ']' 0 ")" = some 0 := by decide
  have qi : sBal '[' ']' 0 v.suffix = some 0 := sBal_free_brackets hs 0 le_rfl
  rw [hstr, balancedPattern, Bool.and_eq_true]
  constructor
  · rw [balancedFor, beq_iff_eq]
    exact sBal_some_append pa (sBal_some_append pb (sBal_some_append hsrc1
      (sBal_some_append pc (sBal_some_append pd (sBal_some_append pe
        (sBal_some_append pf (sBal_some_append pd (sBal_some_append pg
          (sBal_some_append ph (sBal_some_append pi pj))))))))))
  · rw [balancedFor, beq_iff_eq]
    exact sBal_some_append qa (sBal_some_append qb (sBal_some_append hbb
      (sBal_some_append qc (sBal_some_append qd (sBal_some_append qe
        (sBal_some_append qf (sBal_some_append qd (sBal_some_append qg
          (sBal_some_append qh (sBal_some_append qi qh))))))))))

/-- Witness for the amended C3 at a concrete input: the builder
`⟨"", "(?:ab)", ""⟩` (an empty builder after one literal match) with values
`Karen` and `Alice`. -/
theorem c3_two_ors_balanced_witness :
    delimFree (Verex.mk "" "(?:ab)" "").pre = true ∧
    delimFree (Verex.mk "" "(?:ab)" "").suffix = true ∧
    balancedPattern (Verex.mk "" "(?:ab)" "").source = true ∧
    delimFree "Karen" = true ∧
    delimFree "Alice" = true ∧
    balancedPattern (((Verex.mk "" "(?:ab)" "").or "Karen").or "Alice").as_str = true :=
  ⟨by decide, by decide, by decide, by decide, by decide,
    c3_two_ors_balanced (Verex.mk "" "(?:ab)" "") "Karen" "Alice"
      (by decide) (by decide) (by decide) (by decide) (by decide)⟩

/-- C4 counterexample: on the empty builder (empty suffix) `end_capture`
fails — the Rust `suffix.len() - 1` wraps around and the subsequent slice
is out of bounds, a panic — rather than "removing the last character of
the empty suffix rather than failing" as the claim states. -/
theorem c4_counterexample : Verex.new.end_capture = none :=
  rfl

/-- C4 (amended): on a builder with a nonempty suffix, `end_capture`
removes exactly one trailing character from the suffix and appends `)` to
the body, regardless of whether a `begin_capture` is pending (the suffix
may be unrelated, e.g. a `$` anchor); on an empty suffix the call fails
instead (see the counterexample). -/
theorem c4_end_capture (v : Verex) (h : v.suffix ≠ "") :
    v.end_capture = some (Verex.mk v.pre (v.source ++ ")")
      (String.mk v.suffix.data.dropLast)) ∧
    (String.mk v.suffix.data.dropLast).length + 1 = v.suffix.length := by
  constructor
  · simp [Verex.end_capture, h, Verex.from', Verex.add]
  · have hd : v.suffix.data ≠ [] := by
      intro hnil
      apply h
      cases hsuf : v.suffix with
      | mk l =>
        rw [hsuf] at hnil
        have hl : l = [] := hnil
        rw [hl]
    have hpos : 0 < v.suffix.data.length := List.length_pos.mpr hd
    show (String.mk v.suffix.data.dropLast).length + 1 = v.suffix.data.length
    rw [String.mk_length, List.length_dropLast]
    omega

/-- Witness for the amended C4: `end_capture` on the builder `⟨"", "", "$"⟩`
(an `end_of_line` anchor, no pending `begin_capture`) pops the `$` and
appends `)` to the body. -/
theorem c4_end_capture_witness :
    (Verex.mk "" "" "$").suffix ≠ "" ∧
    ((Verex.mk "" "" "$").end_capture = some (Verex.mk (Verex.mk "" "" "$").pre
        ((Verex.mk "" "" "$").source ++ ")")
        (String.mk (Verex.mk "" "" "$").suffix.data.dropLast)) ∧
      (String.mk (Verex.mk "" "" "$").suffix.data.dropLast).length + 1 =
        (Verex.mk "" "" "$").suffix.length) :=
  ⟨by decide, c4_end_capture (Verex.mk "" "" "$") (by decide)⟩

/-- A regex-engine instance whose compiler rejects every pattern; used to
exercise the compile-failure path at concrete inputs. -/
def failEngine : RegexEngine Unit where
  compile _ := .error "compile error"
  is_match _ _ := false
  captures _ _ := none
  split _ _ := []
  replace _ _ _ := ""

/-- C5 counterexample: with an engine whose compile fails, `is_match` on
the empty builder aborts — `Regex::new(...).unwrap()` panics, modelled
`none` — returning nothing to the caller, while the spec's typed-error
model would return `Except.error`: the compile failure is converted into a
panic, not surfaced as a typed error/result value. -/
theorem c5_counterexample :
    Verex.is_match failEngine Verex.new "Karen" = none ∧
    Verex.is_match_specModel failEngine Verex.new "Karen" =
      Except.error "compile error" :=
  ⟨rfl, rfl⟩

/-- C5 (amended): when compilation of the rendered string fails, every
terminal operation that needs a compiled pattern panics at that first
operation (the unwrap of the compile error, modelled `none`): the failure
is not silently swallowed, but it reaches the caller as a panic, not as a
typed error value. -/
theorem c5_compile_failure_panics {R : Type} (E : RegexEngine R) (v : Verex)
    (text rep e : String) (h : E.compile v.as_str = .error e) :
    v.as_regex E = none ∧ v.is_match E text = none ∧
    v.captures E text = none ∧ v.split E text = none ∧
    v.replace E text rep = none := by
  refine ⟨?_, ?_, ?_, ?_, ?_⟩ <;>
    simp [Verex.as_regex, Verex.is_match, Verex.captures, Verex.split,
      Verex.replace, h]

/-- Witness for the amended C5 at a concrete input. -/
theorem c5_compile_failure_panics_witness :
    failEngine.compile Verex.new.as_str = .error "compile error" ∧
    (Verex.new.as_regex failEngine = none ∧
     Verex.is_match failEngine Verex.new "a" = none ∧
     Verex.captures failEngine Verex.new "a" = none ∧
     Verex.split failEngine Verex.new "a" = none ∧
     Verex.replace failEngine Verex.new "a" "b" = none) :=
  ⟨rfl, c5_compile_failure_panics failEngine Verex.new "a" "b" "compile error" rfl⟩

/-- Engine used in the C10 witness: compiles every pattern, matches only
the text `Karen`, reporting group 0 `Karen` and one capture group `K`. -/
def karenEngine : RegexEngine Unit where
  compile _ := .ok ()
  is_match _ t := t == "Karen"
  captures _ t := if t == "Karen" then some ["Karen", "K"] else none
  split _ _ := []
  replace _ _ _ := ""

/-- C10: when the compiled pattern does not match the text, `captures`
returns the empty vector (not an error and not a sentinel); when it
matches, it returns the engine's group list unchanged — group 0 (the whole
match) followed by each capture group, in the engine's order. -/
theorem c10_captures_empty_on_no_match {R : Type} (E : RegexEngine R)
    (v : Verex) (text : String) (r : R) (h : E.compile v.as_str = .ok r) :
    (E.captures r text = none → Verex.captures E v text = some []) ∧
    (∀ gs : List String, E.captures r text = some gs →
      Verex.captures E v text = some gs) := by
  constructor
  · intro hn
    simp [Verex.captures, Verex.as_regex, h, hn]
  · intro gs hg
    simp [Verex.captures, Verex.as_regex, h, hg]

/-- Witness for C10 at concrete inputs: the non-matching text `Alice`
yields the empty vector, the matching text `Karen` yields the groups in
order. -/
theorem c10_captures_empty_on_no_match_witness :
    karenEngine.compile Verex.new.as_str = .ok () ∧
    karenEngine.captures () "Alice" = none ∧
    Verex.captures karenEngine Verex.new "Alice" = some [] ∧
    karenEngine.captures () "Karen" = some ["Karen", "K"] ∧
    Verex.captures karenEngine Verex.new "Karen" = some ["Karen", "K"] :=
  ⟨rfl, by decide, (c10_captures_empty_on_no_match karenEngine Verex.new
      "Alice" () rfl).1 (by decide),
    by decide, (c10_captures_empty_on_no_match karenEngine Verex.new
      "Karen" () rfl).2 ["Karen", "K"] (by decide)⟩
